import Mathlib

/-
Shallow embedding of the StrapTo local server core
(src/strapto_server/webrtc_manager.py, src/strapto_server/event_handler.py,
src/strapto_server/routes/api.py).

Modelling conventions:
- Python mutation is explicit state passing: every WebRTCManager operation maps a
  `ManagerState` to a new `ManagerState` together with an `Except PyError` result.
  Python exceptions propagate as `.error`, while mutations performed before the
  raise persist in the returned state, exactly as in CPython.
- Python strings used as opaque payloads (SDP blobs, ICE candidate descriptors)
  are Lean `String`s.  A candidate string submitted to `process_ice_candidate`
  is classified by the inductive `CandidateStr` according to what
  `RTCIceCandidate(**json.loads(s))` would do with it: parse-and-construct,
  JSON parse failure, or TypeError from mismatched constructor fields.
- The aiortc transport engine (an external library, not part of this
  repository) is modelled by `RTCPeerConnection`/`RTCDataChannel` following the
  aiortc/WebRTC signalling semantics the code relies on: `setRemoteDescription`
  validates the description type against the signalling state and raises
  InvalidStateError on a mismatch; `addIceCandidate` either records the
  candidate or raises if the engine rejects it; `send` either records the
  message or raises.  Environment-determined failures (engine rejecting a
  candidate, a send or close raising) are Boolean fields of the handle.
- Python `dict` is an association list with distinct keys; `dict.pop` removes
  the key, assignment replaces in place or appends.  Iterating a dict while
  popping from it raises RuntimeError on the next step of the iterator, which
  the fanout model (`fanoutGo`) reproduces.
- `PeerInfo.ice_candidates` is a Python `Set[str]`: `iceAdd` inserts only if
  absent.  The list order used here (insertion order) is one admissible
  iteration order of a Python set; theorems about the drain are stated so that
  they do not depend on which admissible order is used, except where the list
  order itself is what the source would have to provide for the spec to hold.
- `datetime.now()` is an abstract tick passed in as `now : Nat`.
-/

namespace StrapTo

/-- Python-level exceptions that the modelled code can raise or catch. -/
inductive PyError where
  | valueError (msg : String)
  | jsonDecodeError
  | invalidStateError
  | typeError
  | engineError
  | runtimeError
deriving DecidableEq, Repr

/-- Signalling state of an aiortc RTCPeerConnection. -/
inductive SignalingState where
  | stable
  | haveLocalOffer
  | haveRemoteOffer
  | closed
deriving DecidableEq, Repr

/-- An SDP session description, as constructed by
`RTCSessionDescription(**json.loads(s))`. -/
structure RTCSessionDescription where
  sdp : String
  type : String
deriving DecidableEq, Repr

/-- Classification of a raw ICE-candidate string by what
`RTCIceCandidate(**json.loads(s))` does with it: `valid c` parses and
constructs the candidate `c`; `invalidJson` makes `json.loads` raise
JSONDecodeError; `badFields` parses as JSON but the constructor raises
TypeError because the fields do not match. -/
inductive CandidateStr where
  | valid (c : String)
  | invalidJson (raw : String)
  | badFields (raw : String)
deriving DecidableEq, Repr

/-- Classification of a raw SDP string by what
`RTCSessionDescription(**json.loads(s))` does with it. -/
inductive SdpStr where
  | valid (d : RTCSessionDescription)
  | invalidJson (raw : String)
deriving DecidableEq, Repr

/-- Model of an aiortc RTCPeerConnection handle.  `appliedCandidates` is the
ordered log of candidates successfully passed to the engine's
`addIceCandidate`.  `rejectCandidates` and `closeRaises` are
environment-determined failure behaviours of the engine. -/
structure RTCPeerConnection where
  signalingState : SignalingState
  localDescription : Option RTCSessionDescription
  remoteDescription : Option RTCSessionDescription
  appliedCandidates : List String
  rejectCandidates : Bool
  closeRaises : Bool
deriving DecidableEq, Repr

/-- Model of an aiortc RTCDataChannel handle.  `sentMessages` is the ordered
log of messages successfully sent on the channel; `sendFails` and
`closeRaises` are environment-determined failure behaviours. -/
structure RTCDataChannel where
  readyState : String
  sendFails : Bool
  sentMessages : List String
  closeRaises : Bool
deriving DecidableEq, Repr

/-- Metrics for a peer connection (webrtc_manager.py, PeerMetrics). -/
structure PeerMetrics where
  connected_at : Nat
  messages_sent : Nat
  messages_received : Nat
  bytes_sent : Nat
  bytes_received : Nat
  last_activity : Option Nat
deriving DecidableEq, Repr

/-- Information about a connected peer (webrtc_manager.py, PeerInfo).
`ice_candidates` models the Python `Set[str]` buffer of candidates stored
until the remote description is set. -/
structure PeerInfo where
  connection : RTCPeerConnection
  data_channel : Option RTCDataChannel
  ice_candidates : List CandidateStr
  metrics : PeerMetrics
deriving DecidableEq, Repr

/-- Ghost log of the engine-level side effects a manager operation performed,
in order. -/
inductive Action where
  | sent (peer : String) (msg : String)
  | candidateApplied (peer : String) (cand : String)
  | channelClosed (peer : String)
  | connectionClosed (peer : String)
deriving DecidableEq, Repr

/-- State of a WebRTCManager: the `self.peers` dict (insertion-ordered
association list with distinct keys) plus the ghost action trace. -/
structure ManagerState where
  peers : List (String × PeerInfo)
  trace : List Action
deriving DecidableEq, Repr

/-- Result of one manager operation: the Python return value or the exception
that propagated, together with the state after all mutations (mutations made
before a raise persist). -/
structure Outcome (α : Type) where
  result : Except PyError α
  st : ManagerState

/-- Dict lookup: `peers[pid]` if present (first matching key). -/
def lookupPeer (peers : List (String × PeerInfo)) (pid : String) : Option PeerInfo :=
  match peers with
  | [] => none
  | (q, info) :: rest => if q = pid then some info else lookupPeer rest pid

/-- Dict assignment `peers[pid] = info`: replaces the first entry with that key
in place, or appends a new entry (Python dicts keep insertion order and keep
the position of an overwritten key). -/
def setPeer (peers : List (String × PeerInfo)) (pid : String) (info : PeerInfo) :
    List (String × PeerInfo) :=
  match peers with
  | [] => [(pid, info)]
  | (q, old) :: rest =>
    if q = pid then (pid, info) :: rest else (q, old) :: setPeer rest pid info

/-- Dict removal `peers.pop(pid, None)` (the state part). -/
def popPeer (peers : List (String × PeerInfo)) (pid : String) :
    List (String × PeerInfo) :=
  peers.filter (fun e => e.1 ≠ pid)

/-- Python set insertion (`set.add`): a no-op when the element is already in
the buffer. -/
def iceAdd (s : List CandidateStr) (c : CandidateStr) : List CandidateStr :=
  if c ∈ s then s else s ++ [c]

/-- Engine `setRemoteDescription` (aiortc): validates the description type
against the signalling state, raising InvalidStateError on a mismatch. -/
def pcSetRemoteDescription (pc : RTCPeerConnection) (d : RTCSessionDescription) :
    Except PyError RTCPeerConnection :=
  if d.type = "answer" then
    match pc.signalingState with
    | .haveLocalOffer =>
      .ok { pc with remoteDescription := some d, signalingState := .stable }
    | _ => .error .invalidStateError
  else if d.type = "offer" then
    match pc.signalingState with
    | .stable =>
      .ok { pc with remoteDescription := some d, signalingState := .haveRemoteOffer }
    | .haveRemoteOffer =>
      .ok { pc with remoteDescription := some d, signalingState := .haveRemoteOffer }
    | _ => .error .invalidStateError
  else .error .invalidStateError

/-- Engine `addIceCandidate`: raises when the engine rejects candidates,
otherwise records the candidate in order. -/
def pcAddIceCandidate (pc : RTCPeerConnection) (c : String) :
    Except PyError RTCPeerConnection :=
  if pc.rejectCandidates then .error .engineError
  else .ok { pc with appliedCandidates := pc.appliedCandidates ++ [c] }

/-- Fresh metrics for a newly created peer (PeerMetrics defaults with
`connected_at = now`). -/
def freshMetrics (now : Nat) : PeerMetrics :=
  { connected_at := now, messages_sent := 0, messages_received := 0,
    bytes_sent := 0, bytes_received := 0, last_activity := none }

/-- A freshly constructed RTCPeerConnection handle. -/
def freshPC : RTCPeerConnection :=
  { signalingState := .stable, localDescription := none, remoteDescription := none,
    appliedCandidates := [], rejectCandidates := false, closeRaises := false }

/-- A freshly created data channel (`pc.createDataChannel("data")`); not yet
open. -/
def freshChannel : RTCDataChannel :=
  { readyState := "connecting", sendFails := false, sentMessages := [],
    closeRaises := false }

/-- The offer descriptor the (mocked) engine generates for a peer. -/
def offerFor (pid : String) : RTCSessionDescription :=
  { sdp := "sdp-offer-" ++ pid, type := "offer" }

/-- The answer descriptor the (mocked) engine generates for a peer. -/
def answerFor (pid : String) : RTCSessionDescription :=
  { sdp := "sdp-answer-" ++ pid, type := "answer" }

/-- The `PeerInfo` stored by `create_connection` for a peer created at tick
`now`: a fresh connection that has generated and set a local offer, and a fresh
(not yet open) data channel. -/
def createdInfo (pid : String) (now : Nat) : PeerInfo :=
  { connection :=
      { freshPC with localDescription := some (offerFor pid),
                     signalingState := .haveLocalOffer },
    data_channel := some freshChannel,
    ice_candidates := [],
    metrics := freshMetrics now }

/-- `WebRTCManager.create_connection` (webrtc_manager.py:176-203): creates a
peer connection and data channel, stores the `PeerInfo` under `peer_id`
(overwriting any existing entry — the code performs no existence check),
creates and sets the local offer, and returns `(peer_id, offer)`. -/
def create_connection (st : ManagerState) (peer_id : String) (now : Nat) :
    Outcome (String × RTCSessionDescription) :=
  { result := .ok (peer_id, offerFor peer_id),
    st := { st with peers := setPeer st.peers peer_id (createdInfo peer_id now) } }

/-- The engine-level close calls performed by `close_peer_connection` on a
popped `PeerInfo`: `data_channel.close()` (when a channel exists) then
`connection.close()`, with the whole block wrapped in `except Exception`, so a
raise from the first call skips the second and is swallowed. -/
def closeActions (pid : String) (info : PeerInfo) : List Action :=
  match info.data_channel with
  | some ch =>
    if ch.closeRaises then []
    else if info.connection.closeRaises then [.channelClosed pid]
    else [.channelClosed pid, .connectionClosed pid]
  | none =>
    if info.connection.closeRaises then [] else [.connectionClosed pid]

/-- `WebRTCManager.close_peer_connection` (webrtc_manager.py:347-362): pops the
peer from `self.peers` first; when an entry was present, closes its handles
with any exception caught and logged.  Never raises. -/
def close_peer_connection (st : ManagerState) (peer_id : String) : Outcome Unit :=
  match lookupPeer st.peers peer_id with
  | none => { result := .ok (), st := st }
  | some info =>
    { result := .ok (),
      st := { peers := popPeer st.peers peer_id,
              trace := st.trace ++ closeActions peer_id info } }

/-- `WebRTCManager.process_ice_candidate` (webrtc_manager.py:301-326): unknown
peer returns normally; with the remote description unset the candidate string
is added to the `ice_candidates` set; otherwise it is parsed, constructed and
forwarded to the engine, with JSONDecodeError and any other exception caught.
Never raises. -/
def process_ice_candidate (st : ManagerState) (peer_id : String)
    (cand : CandidateStr) : Outcome Unit :=
  match lookupPeer st.peers peer_id with
  | none => { result := .ok (), st := st }
  | some info =>
    if info.connection.remoteDescription = none then
      let info2 := { info with ice_candidates := iceAdd info.ice_candidates cand }
      { result := .ok (), st := { st with peers := setPeer st.peers peer_id info2 } }
    else
      match cand with
      | .invalidJson _ => { result := .ok (), st := st }
      | .badFields _ => { result := .ok (), st := st }
      | .valid c =>
        match pcAddIceCandidate info.connection c with
        | .error _ => { result := .ok (), st := st }
        | .ok pc2 =>
          let info2 := { info with connection := pc2 }
          { result := .ok (),
            st := { peers := setPeer st.peers peer_id info2,
                    trace := st.trace ++ [.candidateApplied peer_id c] } }

/-- `WebRTCManager.handle_ice_candidate` (webrtc_manager.py:328-345): wraps the
raw fields in a JSON object `candidate/sdpMLineIndex/sdpMid` and forwards the
string to `process_ice_candidate`.  The resulting string is valid JSON whose
keys do not match the `RTCIceCandidate` constructor, so constructing from it
raises TypeError: it is a `.badFields` string. -/
def handle_ice_candidate (st : ManagerState) (candidate : String)
    (sdp_mline_index : Nat) (sdp_mid : String) (client_id : String) : Outcome Unit :=
  process_ice_candidate st client_id
    (.badFields (candidate ++ "|" ++ toString sdp_mline_index ++ "|" ++ sdp_mid))

/-- The pending-candidate drain loop of `process_answer`
(webrtc_manager.py:220-225): applies each buffered candidate string in
iteration order.  A JSON parse failure, a constructor TypeError or an engine
rejection stops the loop and propagates (process_answer has no inner
try/except around the loop body).  Returns the connection after the applied
prefix, the actions performed, and the exception if one propagated. -/
def drainAnswer (cands : List CandidateStr) (pid : String)
    (pc : RTCPeerConnection) : RTCPeerConnection × List Action × Option PyError :=
  match cands with
  | [] => (pc, [], none)
  | c :: rest =>
    match c with
    | .invalidJson _ => (pc, [], some .jsonDecodeError)
    | .badFields _ => (pc, [], some .typeError)
    | .valid s =>
      match pcAddIceCandidate pc s with
      | .error e => (pc, [], some e)
      | .ok pc2 =>
        let out := drainAnswer rest pid pc2
        (out.1, .candidateApplied pid s :: out.2.1, out.2.2)

/-- The pending-candidate drain loop of `process_offer`
(webrtc_manager.py:259-267): like `drainAnswer`, except a JSON parse failure
of one candidate is caught by the inner `except json.JSONDecodeError` and the
loop continues with the next candidate. -/
def drainOffer (cands : List CandidateStr) (pid : String)
    (pc : RTCPeerConnection) : RTCPeerConnection × List Action × Option PyError :=
  match cands with
  | [] => (pc, [], none)
  | c :: rest =>
    match c with
    | .invalidJson _ => drainOffer rest pid pc
    | .badFields _ => (pc, [], some .typeError)
    | .valid s =>
      match pcAddIceCandidate pc s with
      | .error e => (pc, [], some e)
      | .ok pc2 =>
        let out := drainOffer rest pid pc2
        (out.1, .candidateApplied pid s :: out.2.1, out.2.2)

/-- `WebRTCManager.process_answer` (webrtc_manager.py:205-233): ValueError when
the peer is unknown; otherwise parses the answer (JSONDecodeError re-raised),
sets the remote description (engine errors re-raised), drains the pending
candidate buffer (errors re-raised, in which case the buffer is NOT cleared),
and clears the buffer on success. -/
def process_answer (st : ManagerState) (peer_id : String) (answer : SdpStr) :
    Outcome Unit :=
  match lookupPeer st.peers peer_id with
  | none =>
    { result := .error (.valueError ("No pending connection for peer " ++ peer_id)),
      st := st }
  | some info =>
    match answer with
    | .invalidJson _ => { result := .error .jsonDecodeError, st := st }
    | .valid d =>
      match pcSetRemoteDescription info.connection d with
      | .error e => { result := .error e, st := st }
      | .ok pc1 =>
        let out := drainAnswer info.ice_candidates peer_id pc1
        match out.2.2 with
        | some e =>
          let info2 := { info with connection := out.1 }
          { result := .error e,
            st := { peers := setPeer st.peers peer_id info2,
                    trace := st.trace ++ out.2.1 } }
        | none =>
          let info2 := { info with connection := out.1, ice_candidates := [] }
          { result := .ok (),
            st := { peers := setPeer st.peers peer_id info2,
                    trace := st.trace ++ out.2.1 } }

/-- `WebRTCManager.process_offer` (webrtc_manager.py:235-284): creates the peer
entry first when absent (so it persists even if a later step raises), parses
the offer, sets the remote description, drains the pending candidate buffer
(skipping unparseable candidates), then generates and sets the local answer
and returns it. -/
def process_offer (st : ManagerState) (peer_id : String) (offer : SdpStr)
    (now : Nat) : Outcome RTCSessionDescription :=
  let info0 :=
    match lookupPeer st.peers peer_id with
    | some info => info
    | none =>
      { connection := freshPC, data_channel := none, ice_candidates := [],
        metrics := freshMetrics now }
  let st0 : ManagerState :=
    match lookupPeer st.peers peer_id with
    | some _ => st
    | none => { st with peers := setPeer st.peers peer_id info0 }
  match offer with
  | .invalidJson _ => { result := .error .jsonDecodeError, st := st0 }
  | .valid d =>
    match pcSetRemoteDescription info0.connection d with
    | .error e => { result := .error e, st := st0 }
    | .ok pc1 =>
      let out := drainOffer info0.ice_candidates peer_id pc1
      match out.2.2 with
      | some e =>
        let info2 := { info0 with connection := out.1 }
        { result := .error e,
          st := { peers := setPeer st0.peers peer_id info2,
                  trace := st0.trace ++ out.2.1 } }
      | none =>
        let ans := answerFor peer_id
        let pc2 := { out.1 with localDescription := some ans,
                                signalingState := SignalingState.stable }
        let info2 := { info0 with connection := pc2, ice_candidates := [] }
        { result := .ok ans,
          st := { peers := setPeer st0.peers peer_id info2,
                  trace := st0.trace ++ out.2.1 } }

/-- An event as carried on the event bus and fanned out
(event_handler.py, Event). -/
structure Event where
  type : String
  data : String
  timestamp : Nat
  metadata : Option String
deriving DecidableEq, Repr

/-- The `json.dumps` serialization performed by `_handle_model_output`
(webrtc_manager.py:409-414), abstracted to an injective textual encoding of
the same four fields. -/
def serializeModelOutput (ev : Event) : String :=
  "type=model_output|data=" ++ ev.data ++ "|timestamp=" ++ toString ev.timestamp
    ++ "|metadata=" ++ (match ev.metadata with | none => "null" | some m => m)

/-- Metrics update on a successful send (webrtc_manager.py:422-425):
`messages_sent += 1`, `bytes_sent += len(message.encode())`,
`last_activity = now`. -/
def bumpSent (m : PeerMetrics) (msg : String) (now : Nat) : PeerMetrics :=
  { m with messages_sent := m.messages_sent + 1,
           bytes_sent := m.bytes_sent + msg.utf8ByteSize,
           last_activity := some now }

/-- The fanout loop of `_handle_model_output` (webrtc_manager.py:417-429),
iterating `self.peers.items()`.  Sends to every peer with an open channel; on
a send failure the except block awaits `close_peer_connection`, which pops the
current peer from the dict being iterated, so the iterator raises
RuntimeError on its next step (CPython: "dictionary changed size during
iteration") — the remaining entries stay in the dict but receive nothing.
Returns the resulting entry list, the actions performed, and the exception if
one propagated. -/
def fanoutGo (msg : String) (now : Nat) :
    List (String × PeerInfo) →
      List (String × PeerInfo) × List Action × Option PyError
  | [] => ([], [], none)
  | (pid, info) :: rest =>
    match info.data_channel with
    | some ch =>
      if ch.readyState = "open" then
        if ch.sendFails then
          (rest, closeActions pid info, some .runtimeError)
        else
          let info2 :=
            { info with
                data_channel := some ({ ch with sentMessages := ch.sentMessages ++ [msg] }),
                metrics := bumpSent info.metrics msg now }
          let out := fanoutGo msg now rest
          ((pid, info2) :: out.1, .sent pid msg :: out.2.1, out.2.2)
      else
        let out := fanoutGo msg now rest
        ((pid, info) :: out.1, out.2.1, out.2.2)
    | none =>
      let out := fanoutGo msg now rest
      ((pid, info) :: out.1, out.2.1, out.2.2)

/-- `WebRTCManager._handle_model_output` (webrtc_manager.py:402-429):
serializes the event once and runs the fanout loop over `self.peers`. -/
def handle_model_output (st : ManagerState) (ev : Event) (now : Nat) :
    Outcome Unit :=
  let out := fanoutGo (serializeModelOutput ev) now st.peers
  { result := match out.2.2 with | none => .ok () | some e => .error e,
    st := { peers := out.1, trace := st.trace ++ out.2.1 } }

/-- A sequence of `model_output` publications, each fanned out by
`_handle_model_output`; stops if a fanout raises. -/
def publishEvents (st : ManagerState) (evs : List Event) (now : Nat) :
    Outcome Unit :=
  match evs with
  | [] => { result := .ok (), st := st }
  | e :: rest =>
    let o := handle_model_output st e now
    match o.result with
    | .error err => { result := .error err, st := o.st }
    | .ok _ => publishEvents o.st rest now

namespace EventBus

/-- An event on the bus (event_handler.py, Event); the payload is opaque. -/
structure BusEvent where
  type : String
  data : String
  timestamp : Nat
deriving DecidableEq, Repr

/-- The payload of the `error` event `_safe_handle` constructs
(event_handler.py:134-141): the original event, `str(e)`, and the failing
handler's `__name__`. -/
structure ErrorEventData where
  original_event : BusEvent
  error : String
  handler : String
deriving DecidableEq, Repr

/-- A subscribed handler: its `__name__` and its behaviour on an event —
`none` for a normal return, `some msg` when it raises an exception whose
`str` is `msg`. -/
structure Handler where
  name : String
  behavior : BusEvent → Option String

/-- Delivery record: a handler was invoked with an event, or an error handler
was invoked with an error-event payload. -/
inductive BusAction where
  | handled (handler : String) (ev : BusEvent)
  | errorHandled (handler : String) (err : ErrorEventData)
deriving DecidableEq, Repr

/-- State of an EventEmitter (event_handler.py:49-53): the `_listeners` dict
from event type to the set of handlers, the `_error_handlers` set, and the
`_running` flag.  Python sets are modelled as lists; no claim depends on
their iteration order. -/
structure EventEmitter where
  listeners : List (String × List Handler)
  error_handlers : List Handler
  running : Bool

/-- `self._listeners.get(event.type, set())`. -/
def getListeners (ls : List (String × List Handler)) (ty : String) : List Handler :=
  match ls with
  | [] => []
  | (q, hs) :: rest => if q = ty then hs else getListeners rest ty

/-- `EventEmitter._safe_handle` (event_handler.py:123-149): invokes the
handler; when it raises, builds the error event and invokes every error
handler with it, swallowing error-handler exceptions.  Returns the deliveries
performed. -/
def safeHandle (error_handlers : List Handler) (h : Handler) (ev : BusEvent) :
    List BusAction :=
  match h.behavior ev with
  | none => [.handled h.name ev]
  | some msg =>
    .handled h.name ev ::
      error_handlers.map (fun eh => .errorHandled eh.name ⟨ev, msg, h.name⟩)

/-- `EventEmitter.emit` (event_handler.py:100-121): raises RuntimeError when
stopped; otherwise wraps every handler for `ev.type` in `_safe_handle` and
awaits them all (`asyncio.gather` with `return_exceptions=True`), so no
handler failure reaches the publisher.  Returns the deliveries performed. -/
def emit (em : EventEmitter) (ev : BusEvent) : Except PyError (List BusAction) :=
  if em.running then
    .ok ((getListeners em.listeners ev.type).flatMap
      (fun h => safeHandle em.error_handlers h ev))
  else .error .runtimeError

end EventBus

/-- Outcome classification of the `/webrtc/ice-candidate` route's JSON
response (routes/api.py:116-162). -/
inductive ApiStatus where
  | accepted
  | missingFields
  | invalidFormat
  | internalError
deriving DecidableEq, Repr

/-- An HTTP response of the signaling API: status code and body kind. -/
structure ApiResponse where
  code : Nat
  body : ApiStatus
deriving DecidableEq, Repr

/-- The parsed JSON payload of an ICE-candidate request; each expected field
is `none` when missing. -/
structure IceCandidateRequest where
  candidate : Option String
  sdpMLineIndex : Option Nat
  sdpMid : Option String
  client_id : Option String
deriving DecidableEq, Repr

/-- The `/webrtc/ice-candidate` route handler (routes/api.py:116-162):
validates field presence (400 on missing fields), forwards to
`WebRTCManager.handle_ice_candidate`, and returns `{"status": "accepted"}`
with HTTP 200 when it returns; ValueError maps to 400 and any other exception
to 500 via the route's except clauses. -/
def api_handle_ice_candidate (st : ManagerState) (req : IceCandidateRequest) :
    ApiResponse × ManagerState :=
  match req.candidate, req.sdpMLineIndex, req.sdpMid, req.client_id with
  | some cand, some idx, some mid, some cid =>
    let o := handle_ice_candidate st cand idx mid cid
    match o.result with
    | .ok _ => ({ code := 200, body := .accepted }, o.st)
    | .error (.valueError _) => ({ code := 400, body := .invalidFormat }, o.st)
    | .error _ => ({ code := 500, body := .internalError }, o.st)
  | _, _, _, _ => ({ code := 400, body := .missingFields }, st)

theorem lookupPeer_setPeer_self (ps : List (String × PeerInfo)) (pid : String)
    (info : PeerInfo) : lookupPeer (setPeer ps pid info) pid = some info := by
  induction ps with
  | nil => simp [setPeer, lookupPeer]
  | cons e rest ih =>
    obtain ⟨q, old⟩ := e
    by_cases h : q = pid
    · simp [setPeer, lookupPeer, h]
    · simp [setPeer, lookupPeer, h, ih]

theorem lookupPeer_setPeer_ne (ps : List (String × PeerInfo)) (pid q : String)
    (info : PeerInfo) (h : q ≠ pid) :
    lookupPeer (setPeer ps pid info) q = lookupPeer ps q := by
  induction ps with
  | nil => simp [setPeer, lookupPeer, Ne.symm h]
  | cons e rest ih =>
    obtain ⟨r, old⟩ := e
    by_cases hr : r = pid
    · subst hr
      simp [setPeer, lookupPeer, Ne.symm h]
    · simp [setPeer, lookupPeer, hr, ih]

theorem setPeer_setPeer (ps : List (String × PeerInfo)) (pid : String)
    (a b : PeerInfo) : setPeer (setPeer ps pid a) pid b = setPeer ps pid b := by
  induction ps with
  | nil => simp [setPeer]
  | cons e rest ih =>
    obtain ⟨q, old⟩ := e
    by_cases h : q = pid
    · simp [setPeer, h]
    · simp [setPeer, h, ih]

theorem setPeer_lookup_id (ps : List (String × PeerInfo)) (pid : String)
    (info : PeerInfo) (h : lookupPeer ps pid = some info) :
    setPeer ps pid info = ps := by
  induction ps with
  | nil => simp [lookupPeer] at h
  | cons e rest ih =>
    obtain ⟨q, old⟩ := e
    by_cases hq : q = pid
    · subst hq
      simp [lookupPeer] at h
      simp [setPeer, h]
    · simp [lookupPeer, hq] at h
      simp [setPeer, hq, ih h]

theorem lookupPeer_popPeer_self (ps : List (String × PeerInfo)) (pid : String) :
    lookupPeer (popPeer ps pid) pid = none := by
  induction ps with
  | nil => simp [popPeer, lookupPeer]
  | cons e rest ih =>
    obtain ⟨q, old⟩ := e
    by_cases h : q = pid
    · simpa [popPeer, h] using ih
    · simpa [popPeer, lookupPeer, h] using ih

/-- C6: `close_peer_connection` is idempotent: for every peer id, calling it
twice yields the same end state as calling it once (peer closed and absent
from the registry, identical trace of closing actions), both calls return
normally, and after the first call the peer is absent. -/
theorem C6_close_peer_connection_idempotent (st : ManagerState) (pid : String) :
    (close_peer_connection st pid).result = .ok () ∧
    (close_peer_connection (close_peer_connection st pid).st pid).result = .ok () ∧
    (close_peer_connection (close_peer_connection st pid).st pid).st =
      (close_peer_connection st pid).st ∧
    lookupPeer (close_peer_connection st pid).st.peers pid = none := by
  cases h : lookupPeer st.peers pid with
  | none => simp [close_peer_connection, h]
  | some info => simp [close_peer_connection, h, lookupPeer_popPeer_self]

/-- C9: `close_peer_connection` pops the registry entry before closing the
handles, so for every registered peer the call returns normally and leaves
the peer absent from the registry, whatever the close behaviour of the
channel and connection handles (including both raising). -/
theorem C9_close_removes_before_closing (st : ManagerState) (pid : String)
    (info : PeerInfo) (h : lookupPeer st.peers pid = some info) :
    (close_peer_connection st pid).result = .ok () ∧
    lookupPeer (close_peer_connection st pid).st.peers pid = none := by
  simp [close_peer_connection, h, lookupPeer_popPeer_self]

/-- A peer whose data channel and transport connection both raise on close. -/
def fragileInfo : PeerInfo :=
  { connection := { freshPC with closeRaises := true },
    data_channel := some { freshChannel with closeRaises := true },
    ice_candidates := [], metrics := freshMetrics 0 }

/-- A registry holding only the fragile peer "p1". -/
def fragileSt : ManagerState := { peers := [("p1", fragileInfo)], trace := [] }

/-- Concrete instantiation of C9: a registered peer whose data channel and
transport connection both raise on close is still removed, with no exception
propagated. -/
theorem C9_close_removes_before_closing_witness :
    (close_peer_connection fragileSt "p1").result = .ok () ∧
    lookupPeer (close_peer_connection fragileSt "p1").st.peers "p1" = none :=
  C9_close_removes_before_closing fragileSt "p1" fragileInfo (by decide)

/-- C10: for a known peer whose remote description is set,
`process_ice_candidate` returns normally for every candidate string — invalid
JSON, mismatched constructor fields and engine rejection are all caught. -/
theorem C10_process_ice_candidate_never_raises (st : ManagerState) (pid : String)
    (info : PeerInfo) (cand : CandidateStr)
    (h : lookupPeer st.peers pid = some info)
    (hrd : info.connection.remoteDescription ≠ none) :
    (process_ice_candidate st pid cand).result = .ok () := by
  cases cand with
  | invalidJson r => simp [process_ice_candidate, h, hrd]
  | badFields r => simp [process_ice_candidate, h, hrd]
  | valid c =>
    cases he : pcAddIceCandidate info.connection c with
    | error e => simp [process_ice_candidate, h, hrd, he]
    | ok pc2 => simp [process_ice_candidate, h, hrd, he]

/-- A peer with a set remote description whose engine rejects candidates. -/
def negotiatedInfo : PeerInfo :=
  { connection :=
      { freshPC with remoteDescription := some (answerFor "p1"),
                     rejectCandidates := true },
    data_channel := none, ice_candidates := [], metrics := freshMetrics 0 }

/-- A registry holding only the negotiated peer "p1". -/
def negotiatedSt : ManagerState := { peers := [("p1", negotiatedInfo)], trace := [] }

/-- Concrete instantiation of C10: a known peer with a set remote description
and an engine that rejects candidates still sees a normal return on an
unparseable candidate. -/
theorem C10_process_ice_candidate_never_raises_witness :
    (process_ice_candidate negotiatedSt "p1" (.invalidJson "oops")).result = .ok () :=
  C10_process_ice_candidate_never_raises negotiatedSt "p1" negotiatedInfo
    (.invalidJson "oops") (by decide) (by decide)

/-- C8: submitting an ICE candidate for a peer id not in the registry returns
an HTTP 200 acknowledgement from the `/webrtc/ice-candidate` route, creates
no session, and leaves the manager state (registry and trace) unchanged. -/
theorem C8_unknown_peer_candidate_acknowledged (st : ManagerState)
    (cand : String) (idx : Nat) (mid : String) (cid : String)
    (h : lookupPeer st.peers cid = none) :
    api_handle_ice_candidate st
      { candidate := some cand, sdpMLineIndex := some idx,
        sdpMid := some mid, client_id := some cid } =
      ({ code := 200, body := .accepted }, st) := by
  simp [api_handle_ice_candidate, handle_ice_candidate, process_ice_candidate, h]

/-- Concrete instantiation of C8: an ICE candidate for peer "unknown" against
an empty registry is acknowledged with HTTP 200 and the state is untouched. -/
theorem C8_unknown_peer_candidate_acknowledged_witness :
    api_handle_ice_candidate { peers := [], trace := [] }
      { candidate := some "cand", sdpMLineIndex := some 0,
        sdpMid := some "0", client_id := some "unknown" } =
      ({ code := 200, body := .accepted }, { peers := [], trace := [] }) :=
  C8_unknown_peer_candidate_acknowledged _ "cand" 0 "0" "unknown" (by decide)

/-- A live session stored under "p1" (used to exercise `create_connection`
against an occupied registry slot). -/
def liveInfo : PeerInfo :=
  { connection := freshPC, data_channel := none, ice_candidates := [],
    metrics := freshMetrics 1 }

/-- A registry in which a live session already exists for "p1". -/
def liveSt : ManagerState := { peers := [("p1", liveInfo)], trace := [] }

/-- C4 counterexample: a live session already exists for "p1", yet
`create_connection` does not fail — it returns the offer successfully and the
stored session is no longer the pre-existing one (it has been replaced by a
fresh session), contradicting "fails with AlreadyExists and leaves the
existing session in place". -/
theorem C4_counterexample_create_connection_overwrites :
    (create_connection liveSt "p1" 2).result = .ok ("p1", offerFor "p1") ∧
    lookupPeer (create_connection liveSt "p1" 2).st.peers "p1" =
      some (createdInfo "p1" 2) ∧
    createdInfo "p1" 2 ≠ liveInfo := by
  refine ⟨rfl, ?_, by decide⟩
  simp [create_connection, lookupPeer_setPeer_self]

/-- C4 (amended): `create_connection` performs no existence check and never
fails with AlreadyExists: for every peer id it creates a fresh session and
stores it under the id, replacing any existing session (whose handles are not
closed — the trace is unchanged), leaving all other registry entries intact,
and returns the generated offer. -/
theorem C4_create_connection_always_creates (st : ManagerState) (pid : String)
    (now : Nat) :
    (create_connection st pid now).result = .ok (pid, offerFor pid) ∧
    lookupPeer (create_connection st pid now).st.peers pid =
      some (createdInfo pid now) ∧
    (∀ q, q ≠ pid →
      lookupPeer (create_connection st pid now).st.peers q = lookupPeer st.peers q) ∧
    (create_connection st pid now).st.trace = st.trace := by
  refine ⟨rfl, ?_, ?_, rfl⟩
  · simp [create_connection, lookupPeer_setPeer_self]
  · intro q hq
    simp [create_connection, lookupPeer_setPeer_ne _ _ _ _ hq]

/-- Concrete instantiation of C4 (amended) on the occupied registry. -/
theorem C4_create_connection_always_creates_witness :
    (create_connection liveSt "p1" 2).result = .ok ("p1", offerFor "p1") ∧
    lookupPeer (create_connection liveSt "p1" 2).st.peers "p1" =
      some (createdInfo "p1" 2) ∧
    lookupPeer (create_connection liveSt "p1" 2).st.peers "p2" =
      lookupPeer liveSt.peers "p2" ∧
    (create_connection liveSt "p1" 2).st.trace = liveSt.trace :=
  ⟨(C4_create_connection_always_creates liveSt "p1" 2).1,
   (C4_create_connection_always_creates liveSt "p1" 2).2.1,
   (C4_create_connection_always_creates liveSt "p1" 2).2.2.1 "p2" (by decide),
   (C4_create_connection_always_creates liveSt "p1" 2).2.2.2⟩

theorem pcSetRemote_answer_wrong_state (pc : RTCPeerConnection)
    (d : RTCSessionDescription) (ht : d.type = "answer")
    (hs : pc.signalingState ≠ .haveLocalOffer) :
    pcSetRemoteDescription pc d = .error .invalidStateError := by
  cases hsv : pc.signalingState with
  | haveLocalOffer => exact absurd hsv hs
  | stable => simp [pcSetRemoteDescription, ht, hsv]
  | haveRemoteOffer => simp [pcSetRemoteDescription, ht, hsv]
  | closed => simp [pcSetRemoteDescription, ht, hsv]

theorem process_answer_wrong_state (st : ManagerState) (pid : String)
    (info : PeerInfo) (d : RTCSessionDescription)
    (h : lookupPeer st.peers pid = some info)
    (hs : info.connection.signalingState ≠ .haveLocalOffer)
    (ht : d.type = "answer") :
    process_answer st pid (.valid d) = ⟨.error .invalidStateError, st⟩ := by
  simp [process_answer, h, pcSetRemote_answer_wrong_state _ _ ht hs]

/-- A connection handle after a successful `setRemoteDescription` with an
answer: remote description stored, signalling state back to stable. -/
def answeredPC (pc : RTCPeerConnection) (d : RTCSessionDescription) :
    RTCPeerConnection :=
  { pc with remoteDescription := some d, signalingState := .stable }

/-- The `PeerInfo` left behind by a successful `process_answer` on a session
with an empty candidate buffer: remote description set, signalling state back
to stable, buffer still empty. -/
def answeredInfo (info : PeerInfo) (d : RTCSessionDescription) : PeerInfo :=
  { info with connection := answeredPC info.connection d, ice_candidates := [] }

theorem process_answer_success (st : ManagerState) (pid : String)
    (info : PeerInfo) (d : RTCSessionDescription)
    (h : lookupPeer st.peers pid = some info)
    (hs : info.connection.signalingState = .haveLocalOffer)
    (hbuf : info.ice_candidates = [])
    (ht : d.type = "answer") :
    process_answer st pid (.valid d) =
      ⟨.ok (), { peers := setPeer st.peers pid (answeredInfo info d),
                 trace := st.trace }⟩ := by
  have hsr : pcSetRemoteDescription info.connection d =
      .ok (answeredPC info.connection d) := by
    simp [pcSetRemoteDescription, ht, hs, answeredPC]
  simp [process_answer, h, hsr, hbuf, drainAnswer, answeredInfo]

/-- C5: `process_answer` succeeds only on a session that is awaiting an
answer: it raises ValueError (the NotFound case) when no session exists for
the peer id, raises the engine's InvalidStateError when the session's
signalling state is not have-local-offer, and after a completed
offer/answer round trip a second `process_answer` raises InvalidStateError. -/
theorem C5_process_answer_state_checks :
    (∀ st pid ans, lookupPeer st.peers pid = none →
        process_answer st pid ans =
          ⟨.error (.valueError ("No pending connection for peer " ++ pid)), st⟩) ∧
    (∀ st pid info d, lookupPeer st.peers pid = some info →
        info.connection.signalingState ≠ .haveLocalOffer → d.type = "answer" →
        process_answer st pid (.valid d) = ⟨.error .invalidStateError, st⟩) ∧
    (∀ st pid now d, d.type = "answer" →
        (process_answer (create_connection st pid now).st pid (.valid d)).result
          = .ok () ∧
        (process_answer
            (process_answer (create_connection st pid now).st pid (.valid d)).st
            pid (.valid d)).result = .error .invalidStateError) := by
  refine ⟨?_, ?_, ?_⟩
  · intro st pid ans h
    simp [process_answer, h]
  · intro st pid info d h hs ht
    exact process_answer_wrong_state st pid info d h hs ht
  · intro st pid now d ht
    have h1 : lookupPeer (create_connection st pid now).st.peers pid =
        some (createdInfo pid now) := by
      simp [create_connection, lookupPeer_setPeer_self]
    have hsucc := process_answer_success _ _ _ _ h1 rfl rfl ht
    refine ⟨by rw [hsucc], ?_⟩
    rw [hsucc]
    have h2 : lookupPeer (setPeer (create_connection st pid now).st.peers pid
          (answeredInfo (createdInfo pid now) d)) pid =
        some (answeredInfo (createdInfo pid now) d) :=
      lookupPeer_setPeer_self _ _ _
    rw [process_answer_wrong_state _ pid (answeredInfo (createdInfo pid now) d) d h2
      (by simp [answeredInfo, answeredPC]) ht]

/-- The empty manager state. -/
def emptySt : ManagerState := { peers := [], trace := [] }

/-- Concrete instantiation of C5: NotFound on the empty registry, success on
the first answer after an offer for "p1", InvalidStateError on the second. -/
theorem C5_process_answer_state_checks_witness :
    process_answer emptySt "p1" (.valid (answerFor "p1")) =
      ⟨.error (.valueError ("No pending connection for peer " ++ "p1")), emptySt⟩ ∧
    (process_answer (create_connection emptySt "p1" 0).st "p1"
        (.valid (answerFor "p1"))).result = .ok () ∧
    (process_answer
        (process_answer (create_connection emptySt "p1" 0).st "p1"
          (.valid (answerFor "p1"))).st
        "p1" (.valid (answerFor "p1"))).result = .error .invalidStateError :=
  ⟨C5_process_answer_state_checks.1 emptySt "p1" (.valid (answerFor "p1")) (by decide),
   (C5_process_answer_state_checks.2.2 emptySt "p1" 0 (answerFor "p1") (by decide)).1,
   (C5_process_answer_state_checks.2.2 emptySt "p1" 0 (answerFor "p1") (by decide)).2⟩

/-- C7: when a subscribed handler raises during `emit`, the failure is caught
rather than propagated to the publisher (emit returns normally), an error
event carrying the original event, the failure reason and the failing
handler's identity is delivered to every registered error handler, and every
sibling handler of the original event still receives the event. -/
theorem C7_handler_failure_isolated (em : EventBus.EventEmitter)
    (ev : EventBus.BusEvent) (h : EventBus.Handler) (msg : String)
    (hrun : em.running = true)
    (hmem : h ∈ EventBus.getListeners em.listeners ev.type)
    (hraise : h.behavior ev = some msg) :
    ∃ acts, EventBus.emit em ev = .ok acts ∧
      (∀ h2 ∈ EventBus.getListeners em.listeners ev.type,
        EventBus.BusAction.handled h2.name ev ∈ acts) ∧
      (∀ eh ∈ em.error_handlers,
        EventBus.BusAction.errorHandled eh.name ⟨ev, msg, h.name⟩ ∈ acts) := by
  refine ⟨(EventBus.getListeners em.listeners ev.type).flatMap
      (fun h3 => EventBus.safeHandle em.error_handlers h3 ev), ?_, ?_, ?_⟩
  · simp [EventBus.emit, hrun]
  · intro h2 hh2
    rw [List.mem_flatMap]
    refine ⟨h2, hh2, ?_⟩
    cases hb : h2.behavior ev <;> simp [EventBus.safeHandle, hb]
  · intro eh heh
    rw [List.mem_flatMap]
    refine ⟨h, hmem, ?_⟩
    simp only [EventBus.safeHandle, hraise, List.mem_cons, List.mem_map]
    exact Or.inr ⟨eh, heh, rfl⟩

/-- A handler that raises "boom" on every event. -/
def busHandlerBoom : EventBus.Handler := ⟨"boom_handler", fun _ => some "boom"⟩

/-- A handler that succeeds on every event. -/
def busHandlerOk : EventBus.Handler := ⟨"ok_handler", fun _ => none⟩

/-- An error handler that succeeds on every error event. -/
def busErrHandler : EventBus.Handler := ⟨"error_sink", fun _ => none⟩

/-- A running emitter with a raising and a succeeding handler for "msg", and
one error handler. -/
def busEmitter : EventBus.EventEmitter :=
  ⟨[("msg", [busHandlerBoom, busHandlerOk])], [busErrHandler], true⟩

/-- A concrete event of type "msg". -/
def busEv : EventBus.BusEvent := ⟨"msg", "hello", 7⟩

/-- Concrete instantiation of C7: with the raising handler subscribed next to
a healthy sibling, emit still returns normally, the sibling is delivered to,
and the error handler receives the error payload. -/
theorem C7_handler_failure_isolated_witness :
    ∃ acts, EventBus.emit busEmitter busEv = .ok acts ∧
      (∀ h2 ∈ EventBus.getListeners busEmitter.listeners busEv.type,
        EventBus.BusAction.handled h2.name busEv ∈ acts) ∧
      (∀ eh ∈ busEmitter.error_handlers,
        EventBus.BusAction.errorHandled eh.name ⟨busEv, "boom", busHandlerBoom.name⟩
          ∈ acts) :=
  C7_handler_failure_isolated busEmitter busEv busHandlerBoom "boom" rfl
    (by simp [EventBus.getListeners, busEmitter, busEv]) rfl

/-- A peer "a" whose open data channel raises on send. -/
def failSendInfo : PeerInfo :=
  { connection := freshPC,
    data_channel := some
      { readyState := "open", sendFails := true, sentMessages := [],
        closeRaises := false },
    ice_candidates := [], metrics := freshMetrics 0 }

/-- A peer "b" whose open data channel sends successfully. -/
def okSendInfo : PeerInfo :=
  { connection := freshPC,
    data_channel := some
      { readyState := "open", sendFails := false, sentMessages := [],
        closeRaises := false },
    ice_candidates := [], metrics := freshMetrics 0 }

/-- Registry with the failing peer "a" iterated before the healthy peer "b". -/
def fanoutFailSt : ManagerState :=
  { peers := [("a", failSendInfo), ("b", okSendInfo)], trace := [] }

/-- A model_output event to fan out. -/
def fanoutEv : Event :=
  { type := "model_output", data := "hello", timestamp := 100, metadata := none }

/-- C2 evidence: with two sessions holding open channels and the first send
failing, `_handle_model_output` pops the failing peer from `self.peers` while
iterating `items()` (awaiting the teardown inline rather than fire-and-forget),
so the dict iterator raises RuntimeError before reaching peer "b": the fanout
propagates the exception and "b" receives nothing (its channel log and
`messages_sent` stay empty), contradicting the claim that the remaining M−1
sessions still receive the event. -/
theorem C2_fanout_failure_starves_remaining_sessions :
    (handle_model_output fanoutFailSt fanoutEv 5).result = .error .runtimeError ∧
    lookupPeer (handle_model_output fanoutFailSt fanoutEv 5).st.peers "a" = none ∧
    lookupPeer (handle_model_output fanoutFailSt fanoutEv 5).st.peers "b" =
      some okSendInfo ∧
    (handle_model_output fanoutFailSt fanoutEv 5).st.trace =
      closeActions "a" failSendInfo := by
  refine ⟨rfl, rfl, rfl, rfl⟩

/-- Boolean check that a peer cannot fail a send: when its channel is open,
`send` does not raise. -/
def sendsOk (info : PeerInfo) : Bool :=
  match info.data_channel with
  | some ch => !(ch.readyState == "open") || !ch.sendFails
  | none => true

/-- Boolean check that a peer's data channel exists and is open. -/
def isOpen (info : PeerInfo) : Bool :=
  match info.data_channel with
  | some ch => ch.readyState == "open"
  | none => false

theorem sendsOk_spec (info : PeerInfo) (ch : RTCDataChannel)
    (h : sendsOk info = true) (hch : info.data_channel = some ch)
    (ho : ch.readyState = "open") : ch.sendFails = false := by
  simp [sendsOk, hch, ho] at h
  exact h

/-- Specification-side per-session effect of fanning out the messages `msgs`
in publish order at tick `now`: a session with an open channel receives all
of them appended in order and its send metrics advance accordingly; any other
session is untouched. -/
def specDeliver (msgs : List String) (now : Nat) (info : PeerInfo) : PeerInfo :=
  match info.data_channel with
  | some ch =>
    if ch.readyState = "open" then
      { info with
          data_channel := some ({ ch with sentMessages := ch.sentMessages ++ msgs }),
          metrics :=
            { info.metrics with
                messages_sent := info.metrics.messages_sent + msgs.length,
                bytes_sent :=
                  info.metrics.bytes_sent + (msgs.map String.utf8ByteSize).sum,
                last_activity :=
                  if msgs.isEmpty then info.metrics.last_activity else some now } }
    else info
  | none => info

theorem specDeliver_nil (now : Nat) (info : PeerInfo) :
    specDeliver [] now info = info := by
  obtain ⟨conn, dc, ice, mets⟩ := info
  cases dc with
  | none => simp [specDeliver]
  | some ch =>
    obtain ⟨rs, sf, sm, cr⟩ := ch
    obtain ⟨ca, ms, mr, bs, br, la⟩ := mets
    by_cases hro : rs = "open"
    · subst hro
      simp [specDeliver]
    · simp [specDeliver, hro]

theorem specDeliver_cons (m : String) (ms : List String) (now : Nat)
    (info : PeerInfo) :
    specDeliver ms now (specDeliver [m] now info) = specDeliver (m :: ms) now info := by
  cases hch : info.data_channel with
  | none => simp [specDeliver, hch]
  | some ch =>
    by_cases hro : ch.readyState = "open"
    · cases ms with
      | nil => simp [specDeliver_nil, specDeliver, hch, hro]
      | cons m2 rest =>
        simp [specDeliver, hch, hro, List.append_assoc]
        omega
    · simp [specDeliver, hch, hro]

theorem sendsOk_specDeliver (msgs : List String) (now : Nat) (info : PeerInfo) :
    sendsOk (specDeliver msgs now info) = sendsOk info := by
  cases hch : info.data_channel with
  | none => simp [specDeliver, hch]
  | some ch =>
    by_cases hro : ch.readyState = "open"
    · simp [specDeliver, sendsOk, hch, hro]
    · simp [specDeliver, hch, hro]

theorem fanoutGo_noFail (msg : String) (now : Nat)
    (entries : List (String × PeerInfo))
    (h : ∀ e ∈ entries, sendsOk e.2 = true) :
    fanoutGo msg now entries =
      (entries.map (fun e => (e.1, specDeliver [msg] now e.2)),
       (entries.filter (fun e => isOpen e.2)).map
         (fun e => Action.sent e.1 msg),
       none) := by
  induction entries with
  | nil => simp [fanoutGo]
  | cons e rest ih =>
    obtain ⟨pid, info⟩ := e
    have hrest : ∀ x ∈ rest, sendsOk x.2 = true := fun x hx => h x (.tail _ hx)
    have hhead : sendsOk info = true := h (pid, info) (.head _)
    cases hch : info.data_channel with
    | none => simp [fanoutGo, hch, ih hrest, specDeliver, isOpen]
    | some ch =>
      by_cases hro : ch.readyState = "open"
      · have hsf : ch.sendFails = false := sendsOk_spec info ch hhead hch hro
        simp [fanoutGo, hch, hro, hsf, ih hrest, specDeliver, isOpen, bumpSent]
      · simp [fanoutGo, hch, hro, ih hrest, specDeliver, isOpen]

theorem handle_model_output_noFail (st : ManagerState) (ev : Event) (now : Nat)
    (h : ∀ e ∈ st.peers, sendsOk e.2 = true) :
    handle_model_output st ev now =
      Outcome.mk (.ok ())
        (ManagerState.mk
          (st.peers.map
            (fun e => (e.1, specDeliver [serializeModelOutput ev] now e.2)))
          (st.trace ++ (st.peers.filter (fun e => isOpen e.2)).map
            (fun e => Action.sent e.1 (serializeModelOutput ev)))) := by
  simp [handle_model_output, fanoutGo_noFail _ _ _ h]

/-- C3: for a sequence of `model_output` events published while no send
fails, the fanout delivers to every session with an open data channel exactly
the serialized messages, appended to its channel in publish order, while
advancing `messages_sent` by the number of events, `bytes_sent` by the total
byte length and `last_activity` to the send tick, and leaves every session
without an open channel completely unchanged (`specDeliver` is the per-session
specification of this effect). -/
theorem C3_fanout_exact_delivery (evs : List Event) (st : ManagerState)
    (now : Nat) (h : ∀ e ∈ st.peers, sendsOk e.2 = true) :
    (publishEvents st evs now).result = .ok () ∧
    (publishEvents st evs now).st.peers =
      st.peers.map
        (fun e => (e.1, specDeliver (evs.map serializeModelOutput) now e.2)) := by
  induction evs generalizing st with
  | nil =>
    refine ⟨rfl, ?_⟩
    simp [publishEvents, specDeliver_nil]
  | cons ev rest ih =>
    have hmo := handle_model_output_noFail st ev now h
    have h2 : ∀ x ∈ st.peers.map
        (fun e => (e.1, specDeliver [serializeModelOutput ev] now e.2)),
        sendsOk x.2 = true := by
      intro x hx
      rw [List.mem_map] at hx
      obtain ⟨e, he, rfl⟩ := hx
      simpa [sendsOk_specDeliver] using h e he
    obtain ⟨r1, r2⟩ := ih (ManagerState.mk
      (st.peers.map
        (fun e => (e.1, specDeliver [serializeModelOutput ev] now e.2)))
      (st.trace ++ (st.peers.filter (fun e => isOpen e.2)).map
        (fun e => Action.sent e.1 (serializeModelOutput ev)))) h2
    refine ⟨?_, ?_⟩
    · simp only [publishEvents, hmo]
      exact r1
    · simp only [publishEvents, hmo]
      rw [r2]
      simp only [List.map_map, List.map_cons]
      exact List.map_congr_left (fun e _ => by
        simp only [Function.comp]
        rw [specDeliver_cons])

/-- A peer with no data channel at all. -/
def noChannelInfo : PeerInfo :=
  { connection := freshPC, data_channel := none, ice_candidates := [],
    metrics := freshMetrics 0 }

/-- Registry with one open-channel peer and one peer without a channel. -/
def fanoutOkSt : ManagerState :=
  { peers := [("a", okSendInfo), ("c", noChannelInfo)], trace := [] }

/-- A second model_output event. -/
def fanoutEv2 : Event :=
  { type := "model_output", data := "world", timestamp := 101, metadata := some "m" }

/-- Concrete instantiation of C3 with two published events over one open and
one channel-less session. -/
theorem C3_fanout_exact_delivery_witness :
    (publishEvents fanoutOkSt [fanoutEv, fanoutEv2] 9).result = .ok () ∧
    (publishEvents fanoutOkSt [fanoutEv, fanoutEv2] 9).st.peers =
      fanoutOkSt.peers.map
        (fun e =>
          (e.1, specDeliver ([fanoutEv, fanoutEv2].map serializeModelOutput) 9 e.2)) :=
  C3_fanout_exact_delivery [fanoutEv, fanoutEv2] fanoutOkSt 9 (by decide)

/-- Python set insertion on the raw submitted candidate strings. -/
def strAdd (acc : List String) (r : String) : List String :=
  if r ∈ acc then acc else acc ++ [r]

/-- The contents of the Python set buffer after submitting the candidate
strings `rs` in order: first-occurrence deduplication. -/
def strDedup (rs : List String) : List String := rs.foldl strAdd []

theorem mem_strAdd (acc : List String) (a r : String) :
    r ∈ strAdd acc a ↔ r ∈ acc ∨ r = a := by
  by_cases h : a ∈ acc
  · simp only [strAdd, if_pos h]
    constructor
    · exact Or.inl
    · rintro (hr | rfl)
      · exact hr
      · exact h
  · simp [strAdd, if_neg h]

theorem mem_foldl_strAdd (rs : List String) (acc : List String) (r : String) :
    r ∈ rs.foldl strAdd acc ↔ r ∈ acc ∨ r ∈ rs := by
  induction rs generalizing acc with
  | nil => simp
  | cons a rest ih =>
    rw [List.foldl_cons, ih, mem_strAdd]
    simp [or_assoc]

theorem nodup_foldl_strAdd (rs : List String) (acc : List String)
    (h : acc.Nodup) : (rs.foldl strAdd acc).Nodup := by
  induction rs generalizing acc with
  | nil => exact h
  | cons a rest ih =>
    rw [List.foldl_cons]
    refine ih _ ?_
    by_cases ha : a ∈ acc
    · simpa [strAdd, ha] using h
    · simp [strAdd, ha, List.nodup_append, h]

theorem count_strDedup (rs : List String) (r : String) :
    (strDedup rs).count r = if r ∈ rs then 1 else 0 := by
  by_cases h : r ∈ rs
  · rw [if_pos h]
    exact List.count_eq_one_of_mem (nodup_foldl_strAdd rs [] (List.nodup_nil))
      ((mem_foldl_strAdd rs [] r).2 (Or.inr h))
  · rw [if_neg h]
    refine List.count_eq_zero_of_not_mem (fun hc => ?_)
    rcases (mem_foldl_strAdd rs [] r).1 hc with h0 | h1
    · exact absurd h0 (List.not_mem_nil r)
    · exact h h1

theorem iceAdd_map_valid (acc : List String) (r : String) :
    iceAdd (acc.map CandidateStr.valid) (.valid r) =
      (strAdd acc r).map CandidateStr.valid := by
  by_cases h : r ∈ acc
  · simp [iceAdd, strAdd, h]
  · simp [iceAdd, strAdd, h]

theorem foldl_iceAdd_map_valid (rs : List String) (acc : List String) :
    (rs.map CandidateStr.valid).foldl iceAdd (acc.map CandidateStr.valid) =
      (rs.foldl strAdd acc).map CandidateStr.valid := by
  induction rs generalizing acc with
  | nil => rfl
  | cons r rest ih =>
    rw [List.map_cons, List.foldl_cons, List.foldl_cons, iceAdd_map_valid, ih]

/-- The state after submitting the candidates `cs` one by one through
`process_ice_candidate` for peer `pid`. -/
def submitAll (st : ManagerState) (pid : String) (cs : List CandidateStr) :
    ManagerState :=
  cs.foldl (fun s c => (process_ice_candidate s pid c).st) st

theorem submitAll_buffering (cs : List CandidateStr) (st : ManagerState)
    (pid : String) (info : PeerInfo)
    (h : lookupPeer st.peers pid = some info)
    (hrd : info.connection.remoteDescription = none) :
    submitAll st pid cs =
      ManagerState.mk
        (setPeer st.peers pid
          (PeerInfo.mk info.connection info.data_channel
            (cs.foldl iceAdd info.ice_candidates) info.metrics))
        st.trace := by
  induction cs generalizing st info with
  | nil =>
    show st = ManagerState.mk (setPeer st.peers pid info) st.trace
    rw [setPeer_lookup_id st.peers pid info h]
  | cons c rest ih =>
    have hstep : (process_ice_candidate st pid c).st =
        ManagerState.mk
          (setPeer st.peers pid
            (PeerInfo.mk info.connection info.data_channel
              (iceAdd info.ice_candidates c) info.metrics))
          st.trace := by
      simp [process_ice_candidate, h, hrd]
    have h1 : lookupPeer (setPeer st.peers pid
        (PeerInfo.mk info.connection info.data_channel
          (iceAdd info.ice_candidates c) info.metrics)) pid =
        some (PeerInfo.mk info.connection info.data_channel
          (iceAdd info.ice_candidates c) info.metrics) :=
      lookupPeer_setPeer_self _ _ _
    have hrec := ih (ManagerState.mk
        (setPeer st.peers pid
          (PeerInfo.mk info.connection info.data_channel
            (iceAdd info.ice_candidates c) info.metrics))
        st.trace)
      (PeerInfo.mk info.connection info.data_channel
        (iceAdd info.ice_candidates c) info.metrics) h1 hrd
    show submitAll (process_ice_candidate st pid c).st pid rest = _
    rw [hstep, hrec]
    rw [setPeer_setPeer]
    simp [List.foldl_cons]

theorem drainAnswer_valid (rs : List String) (pid : String)
    (pc : RTCPeerConnection) (h : pc.rejectCandidates = false) :
    drainAnswer (rs.map CandidateStr.valid) pid pc =
      (RTCPeerConnection.mk pc.signalingState pc.localDescription
         pc.remoteDescription (pc.appliedCandidates ++ rs) pc.rejectCandidates
         pc.closeRaises,
       rs.map (Action.candidateApplied pid), none) := by
  induction rs generalizing pc with
  | nil => simp [drainAnswer]
  | cons r rest ih =>
    have hstep : pcAddIceCandidate pc r =
        .ok (RTCPeerConnection.mk pc.signalingState pc.localDescription
          pc.remoteDescription (pc.appliedCandidates ++ [r]) pc.rejectCandidates
          pc.closeRaises) := by
      simp [pcAddIceCandidate, h]
    have hrec := ih (RTCPeerConnection.mk pc.signalingState pc.localDescription
      pc.remoteDescription (pc.appliedCandidates ++ [r]) pc.rejectCandidates
      pc.closeRaises) h
    simp [drainAnswer, hstep, hrec, List.append_assoc]

theorem drainOffer_valid (rs : List String) (pid : String)
    (pc : RTCPeerConnection) (h : pc.rejectCandidates = false) :
    drainOffer (rs.map CandidateStr.valid) pid pc =
      (RTCPeerConnection.mk pc.signalingState pc.localDescription
         pc.remoteDescription (pc.appliedCandidates ++ rs) pc.rejectCandidates
         pc.closeRaises,
       rs.map (Action.candidateApplied pid), none) := by
  induction rs generalizing pc with
  | nil => simp [drainOffer]
  | cons r rest ih =>
    have hstep : pcAddIceCandidate pc r =
        .ok (RTCPeerConnection.mk pc.signalingState pc.localDescription
          pc.remoteDescription (pc.appliedCandidates ++ [r]) pc.rejectCandidates
          pc.closeRaises) := by
      simp [pcAddIceCandidate, h]
    have hrec := ih (RTCPeerConnection.mk pc.signalingState pc.localDescription
      pc.remoteDescription (pc.appliedCandidates ++ [r]) pc.rejectCandidates
      pc.closeRaises) h
    simp [drainOffer, hstep, hrec, List.append_assoc]

/-- State after an offer for "p" and two submissions of the same candidate
string "c1" while the remote description is still unset. -/
def c1TwiceSt : ManagerState :=
  (process_ice_candidate
    (process_ice_candidate (create_connection emptySt "p" 0).st "p"
      (.valid "c1")).st
    "p" (.valid "c1")).st

/-- C1 counterexample: with the remote description unset, the candidate
string "c1" is submitted twice; because `ice_candidates` is a Python set the
second submission is dropped at buffering time, so when `process_answer` sets
the remote description the transport engine receives the candidate once, not
once per submission — the buffered sequence of arrivals ["c1", "c1"] is not
applied in arrival order exactly once each. -/
theorem C1_counterexample_duplicate_submission_collapsed :
    (process_answer c1TwiceSt "p" (.valid (answerFor "p"))).result = .ok () ∧
    (lookupPeer (process_answer c1TwiceSt "p"
        (.valid (answerFor "p"))).st.peers "p").map
      (fun i => i.connection.appliedCandidates) = some ["c1"] ∧
    (some ["c1"] : Option (List String)) ≠ some ["c1", "c1"] := by
  refine ⟨rfl, rfl, by decide⟩

/-- C1 (amended): candidates submitted while the remote description is unset
are buffered in a set, so duplicate submissions of the same candidate string
collapse to a single buffered entry; when the remote description is set (by
`process_answer` or `process_offer`, here with every buffered candidate
parseable and the engine accepting), each distinct submitted candidate is
applied to the transport engine exactly once (`strDedup` keeps one occurrence
per distinct string) and the buffer is cleared.  Arrival order of distinct
candidates is preserved only up to the set's iteration order. -/
theorem C1_distinct_candidates_applied_once (st : ManagerState) (pid : String)
    (info : PeerInfo) (rs : List String) (d : RTCSessionDescription)
    (st2 : ManagerState) (pid2 : String) (info2 : PeerInfo) (rs2 : List String)
    (d2 : RTCSessionDescription) (now2 : Nat)
    (h : lookupPeer st.peers pid = some info)
    (hrd : info.connection.remoteDescription = none)
    (hrej : info.connection.rejectCandidates = false)
    (hsig : info.connection.signalingState = .haveLocalOffer)
    (hbuf : info.ice_candidates = [])
    (ht : d.type = "answer")
    (g : lookupPeer st2.peers pid2 = some info2)
    (grd : info2.connection.remoteDescription = none)
    (grej : info2.connection.rejectCandidates = false)
    (gsig : info2.connection.signalingState = .stable)
    (gbuf : info2.ice_candidates = [])
    (gt : d2.type = "offer") :
    (∀ r, (strDedup rs).count r = if r ∈ rs then 1 else 0) ∧
    ((process_answer (submitAll st pid (rs.map CandidateStr.valid)) pid
        (.valid d)).result = .ok () ∧
      ∃ infoF,
        lookupPeer (process_answer (submitAll st pid (rs.map CandidateStr.valid))
          pid (.valid d)).st.peers pid = some infoF ∧
        infoF.connection.appliedCandidates =
          info.connection.appliedCandidates ++ strDedup rs ∧
        infoF.ice_candidates = [] ∧
        infoF.connection.remoteDescription = some d) ∧
    ((process_offer (submitAll st2 pid2 (rs2.map CandidateStr.valid)) pid2
        (.valid d2) now2).result = .ok (answerFor pid2) ∧
      ∃ infoG,
        lookupPeer (process_offer (submitAll st2 pid2
          (rs2.map CandidateStr.valid)) pid2 (.valid d2) now2).st.peers pid2 =
          some infoG ∧
        infoG.connection.appliedCandidates =
          info2.connection.appliedCandidates ++ strDedup rs2 ∧
        infoG.ice_candidates = [] ∧
        infoG.connection.remoteDescription = some d2) := by
  refine ⟨count_strDedup rs, ?_, ?_⟩
  · have hsub := submitAll_buffering (rs.map CandidateStr.valid) st pid info h hrd
    have hBval : (rs.map CandidateStr.valid).foldl iceAdd info.ice_candidates =
        (strDedup rs).map CandidateStr.valid := by
      rw [hbuf]
      simpa [strDedup] using foldl_iceAdd_map_valid rs []
    have hst1 : submitAll st pid (rs.map CandidateStr.valid) =
        ManagerState.mk (setPeer st.peers pid
          (PeerInfo.mk info.connection info.data_channel
            ((strDedup rs).map CandidateStr.valid) info.metrics)) st.trace := by
      rw [hsub, hBval]
    have hlook1 : lookupPeer (setPeer st.peers pid
        (PeerInfo.mk info.connection info.data_channel
          ((strDedup rs).map CandidateStr.valid) info.metrics)) pid =
        some (PeerInfo.mk info.connection info.data_channel
          ((strDedup rs).map CandidateStr.valid) info.metrics) :=
      lookupPeer_setPeer_self _ _ _
    have hsr : pcSetRemoteDescription info.connection d =
        .ok (answeredPC info.connection d) := by
      simp [pcSetRemoteDescription, ht, hsig, answeredPC]
    have hrej2 : (answeredPC info.connection d).rejectCandidates = false := by
      simpa [answeredPC] using hrej
    have hdr := drainAnswer_valid (strDedup rs) pid (answeredPC info.connection d)
      hrej2
    rw [hst1]
    simp only [process_answer, hlook1, hsr, hdr]
    refine ⟨trivial, _, lookupPeer_setPeer_self _ _ _, ?_, rfl, ?_⟩
    · simp [answeredPC]
    · simp [answeredPC]
  · have gsub := submitAll_buffering (rs2.map CandidateStr.valid) st2 pid2 info2
      g grd
    have gBval : (rs2.map CandidateStr.valid).foldl iceAdd info2.ice_candidates =
        (strDedup rs2).map CandidateStr.valid := by
      rw [gbuf]
      simpa [strDedup] using foldl_iceAdd_map_valid rs2 []
    have gst1 : submitAll st2 pid2 (rs2.map CandidateStr.valid) =
        ManagerState.mk (setPeer st2.peers pid2
          (PeerInfo.mk info2.connection info2.data_channel
            ((strDedup rs2).map CandidateStr.valid) info2.metrics)) st2.trace := by
      rw [gsub, gBval]
    have glook1 : lookupPeer (setPeer st2.peers pid2
        (PeerInfo.mk info2.connection info2.data_channel
          ((strDedup rs2).map CandidateStr.valid) info2.metrics)) pid2 =
        some (PeerInfo.mk info2.connection info2.data_channel
          ((strDedup rs2).map CandidateStr.valid) info2.metrics) :=
      lookupPeer_setPeer_self _ _ _
    have gsr : pcSetRemoteDescription info2.connection d2 =
        .ok (RTCPeerConnection.mk .haveRemoteOffer
          info2.connection.localDescription (some d2)
          info2.connection.appliedCandidates info2.connection.rejectCandidates
          info2.connection.closeRaises) := by
      simp [pcSetRemoteDescription, gt, gsig]
    have gdr := drainOffer_valid (strDedup rs2) pid2
      (RTCPeerConnection.mk .haveRemoteOffer info2.connection.localDescription
        (some d2) info2.connection.appliedCandidates
        info2.connection.rejectCandidates info2.connection.closeRaises) grej
    rw [gst1]
    simp only [process_offer, glook1, gsr, gdr]
    refine ⟨trivial, _, lookupPeer_setPeer_self _ _ _, rfl, rfl, rfl⟩

/-- State after a server-initiated offer for peer "p" (remote description
still unset). -/
def offerSentSt : ManagerState := (create_connection emptySt "p" 0).st

/-- Registry holding one stable peer "q" awaiting a client-initiated offer. -/
def offerSideSt : ManagerState := { peers := [("q", noChannelInfo)], trace := [] }

/-- A parseable client offer descriptor. -/
def plainOffer : RTCSessionDescription := { sdp := "sdp-o", type := "offer" }

/-- Concrete instantiation of C1 (amended): submissions ["c1", "c1", "c2"]
drain to exactly one application of "c1" and one of "c2" on the answer path
(in the buffer's order), and submission ["x"] drains on the offer path. -/
theorem C1_distinct_candidates_applied_once_witness :
    (strDedup ["c1", "c1", "c2"]).count "c1" = 1 ∧
    (strDedup ["c1", "c1", "c2"]).count "c2" = 1 ∧
    (strDedup ["c1", "c1", "c2"]).count "zz" = 0 ∧
    (process_answer (submitAll offerSentSt "p"
        (["c1", "c1", "c2"].map CandidateStr.valid)) "p"
        (.valid (answerFor "p"))).result = .ok () ∧
    (lookupPeer (process_answer (submitAll offerSentSt "p"
        (["c1", "c1", "c2"].map CandidateStr.valid)) "p"
        (.valid (answerFor "p"))).st.peers "p").map
      (fun i => i.connection.appliedCandidates) = some ["c1", "c2"] ∧
    (process_offer (submitAll offerSideSt "q" (["x"].map CandidateStr.valid))
        "q" (.valid plainOffer) 3).result = .ok (answerFor "q") := by
  have hmain := C1_distinct_candidates_applied_once offerSentSt "p"
    (createdInfo "p" 0) ["c1", "c1", "c2"] (answerFor "p") offerSideSt "q"
    noChannelInfo ["x"] plainOffer 3 (by decide) (by decide) (by decide)
    (by decide) (by decide) (by decide) (by decide) (by decide) (by decide)
    (by decide) (by decide) (by decide)
  obtain ⟨hcount, ⟨hres, infoF, hlook, happ, hice, hrdF⟩, hoff⟩ := hmain
  refine ⟨by rw [hcount "c1"]; decide, by rw [hcount "c2"]; decide,
    by rw [hcount "zz"]; decide, hres, ?_, hoff.1⟩
  rw [hlook]
  show some infoF.connection.appliedCandidates = _
  rw [happ]
  decide

end StrapTo

